import Mathlib

/-!
Shallow embedding of `src/app.py` (arithmetic-sequence generator app).

Real-valued inputs are modelled as rationals `ℚ`; `num_terms` is an
integer `ℤ` (Python ints), and Python's `range(n)` is `List.range n.toNat`
(empty for non-positive `n`).  Python string formatting of numbers
(`f"{x:g}"`, `str(x)`) is abstracted as a function parameter
`fmt : ℚ → String`, since no claim depends on the digits it produces.
-/

namespace ArithmeticSequenceApp

/-- Embedding of `generate_arithmetic_sequence` (src/app.py lines 3-19):
`sequence = []; for i in range(num_terms): sequence.append(first_term + i * common_difference)`. -/
def generate_arithmetic_sequence (first_term common_difference : ℚ) (num_terms : ℤ) : List ℚ :=
  (List.range num_terms.toNat).map (fun i : ℕ => first_term + (i : ℚ) * common_difference)

/-- `", ".join(f"\x7bterm:g\x7d" for term in terms)` with the numeric format abstracted. -/
def joinTerms (fmt : ℚ → String) (terms : List ℚ) : String :=
  String.intercalate ", " (terms.map fmt)

/-- The label text `f"Terms \x7blo\x7d-\x7bhi\x7d"` used for a display chunk. -/
def chunkLabel (lo hi : ℕ) : String :=
  "Terms " ++ toString lo ++ "-" ++ toString hi

/-- Python `range(0, stop, step)` (the start offsets of the display chunks). -/
def range_by (stop step : ℕ) : List ℕ :=
  (List.range ((stop + step - 1) / step)).map (fun k => k * step)

/-- The chunk decomposition from src/app.py lines 112-113: for each start
offset `i` in `range(0, len(sequence), chunk_size)`, the pair of `i` and
`sequence[i:i+chunk_size]`. -/
def chunks (sequence : List ℚ) (chunk_size : ℕ) : List (ℕ × List ℚ) :=
  (range_by sequence.length chunk_size).map
    (fun i => (i, (sequence.drop i).take chunk_size))

/-- One rendered chunk line (src/app.py line 115):
`f"Terms \x7bi+1\x7d-\x7bmin(i+chunk_size, len(sequence))\x7d: \x7bchunk_str\x7d"`. -/
def chunk_line (fmt : ℚ → String) (chunk_size len : ℕ) (c : ℕ × List ℚ) : String :=
  chunkLabel (c.1 + 1) (min (c.1 + chunk_size) len) ++ ": " ++ joinTerms fmt c.2

/-- The shape of the sequence display (src/app.py lines 98-115): either a
single inline comma-joined line, or the compact form with the first ten
terms, optionally the last ten terms, and the chunked full sequence. -/
inductive SequenceDisplay where
  | inline (line : String)
  | compact (first_ten : String) (last_ten : Option String) (chunk_texts : List String)
deriving DecidableEq, Repr

/-- The chunk lines shown by a display (empty for the inline form). -/
def SequenceDisplay.chunk_texts_of : SequenceDisplay → List String
  | .inline _ => []
  | .compact _ _ c => c

/-- Embedding of the display-formatting branch, src/app.py lines 98-115. -/
def format_sequence_display (fmt : ℚ → String) (sequence : List ℚ) : SequenceDisplay :=
  if sequence.length ≤ 50 then
    .inline (joinTerms fmt sequence)
  else
    .compact (joinTerms fmt (sequence.take 10))
      (if 20 < sequence.length then
        some (joinTerms fmt (sequence.drop (sequence.length - 10)))
      else none)
      ((chunks sequence 20).map (chunk_line fmt 20 sequence.length))

/-- Last-term metric, src/app.py lines 123-126: `sequence[-1]` when the
length exceeds one, else `sequence[0]`. -/
def displayed_last_term (sequence : List ℚ) : Option ℚ :=
  if 1 < sequence.length then sequence.getLast? else sequence.head?

/-- The export file name, src/app.py line 134:
`f"arithmetic_sequence_\x7bfirst_term\x7d_\x7bcommon_difference\x7d_\x7bnum_terms\x7d.txt"`;
`fmtF` abstracts Python `str` on the real-valued inputs. -/
def download_file_name (fmtF : ℚ → String) (first_term common_difference : ℚ)
    (num_terms : ℤ) : String :=
  "arithmetic_sequence_" ++ fmtF first_term ++ "_" ++ fmtF common_difference ++ "_"
    ++ toString num_terms ++ ".txt"

/-- The export file body, src/app.py line 130:
`"\n".join(f"Term \x7bi+1\x7d: \x7bterm:g\x7d" for i, term in enumerate(sequence))`. -/
def download_content (fmt : ℚ → String) (sequence : List ℚ) : String :=
  String.intercalate "\n"
    (sequence.enum.map (fun p => "Term " ++ toString (p.1 + 1) ++ ": " ++ fmt p.2))

/-- The download offer, src/app.py lines 129-136: the file name and body are
offered only when the sequence has more than ten elements. -/
def download_offer (fmt fmtF : ℚ → String) (first_term common_difference : ℚ)
    (num_terms : ℤ) (sequence : List ℚ) : Option (String × String) :=
  if 10 < sequence.length then
    some (download_file_name fmtF first_term common_difference num_terms,
          download_content fmt sequence)
  else none

/-- Outcome of one interaction of `main`: a blocking validation message, or
the rendered results (sequence, display, sum metric, last-term metric,
download offer). -/
inductive MainResult where
  | validation_error (msg : String)
  | rendered (sequence : List ℚ) (display : SequenceDisplay) (sum_metric : ℚ)
      (last_metric : Option ℚ) (download : Option (String × String))
deriving DecidableEq

/-- Whether generation proceeded (no validation message). -/
def MainResult.proceeded : MainResult → Bool
  | .validation_error _ => false
  | .rendered _ _ _ _ _ => true

/-- Embedding of the computational path of `main` (src/app.py lines 66-136):
validation of `num_terms`, then generation and the derived presentation. -/
def main_flow (fmt fmtF : ℚ → String) (first_term common_difference : ℚ)
    (num_terms : ℤ) : MainResult :=
  if num_terms ≤ 0 then
    .validation_error "Number of terms must be a positive integer."
  else if 1000 < num_terms then
    .validation_error "Number of terms cannot exceed 1000 for performance reasons."
  else
    let sequence := generate_arithmetic_sequence first_term common_difference num_terms
    .rendered sequence (format_sequence_display fmt sequence) sequence.sum
      (displayed_last_term sequence)
      (download_offer fmt fmtF first_term common_difference num_terms sequence)

lemma length_generate (a d : ℚ) (n : ℤ) :
    (generate_arithmetic_sequence a d n).length = n.toNat := by
  unfold generate_arithmetic_sequence
  rw [List.length_map, List.length_range]

/-- Claim C1: for every valid request (1 ≤ num_terms ≤ 1000) and every index
i in [0, num_terms), the i-th element of the generated sequence equals
first_term + i * common_difference. -/
theorem C1_term_value (a d : ℚ) (n : ℤ) (i : ℕ)
    (h1 : 1 ≤ n) (h2 : n ≤ 1000) (hi : (i : ℤ) < n) :
    (generate_arithmetic_sequence a d n)[i]? = some (a + (i : ℚ) * d) := by
  have hlt : i < n.toNat := by omega
  unfold generate_arithmetic_sequence
  rw [List.getElem?_eq_getElem (by simpa using hlt)]
  rw [List.getElem_map, List.getElem_range]

/-- Witness for C1 at first_term = 1, common_difference = 1, num_terms = 10, i = 3. -/
theorem C1_term_value_witness :
    (generate_arithmetic_sequence 1 1 10)[3]? = some (1 + (3 : ℚ) * 1) :=
  C1_term_value 1 1 10 3 (by decide) (by decide) (by decide)

/-- Claim C2: for every valid request (1 ≤ num_terms ≤ 1000) the length of
the generated sequence equals num_terms. -/
theorem C2_sequence_length (a d : ℚ) (n : ℤ) (h1 : 1 ≤ n) (h2 : n ≤ 1000) :
    ((generate_arithmetic_sequence a d n).length : ℤ) = n := by
  rw [length_generate]
  omega

/-- Witness for C2 at first_term = 2, common_difference = 3, num_terms = 7. -/
theorem C2_sequence_length_witness :
    ((generate_arithmetic_sequence 2 3 7).length : ℤ) = 7 :=
  C2_sequence_length 2 3 7 (by decide) (by decide)

/-- Claim C3: when num_terms ≤ 0 or num_terms > 1000, `main` reports a
user-facing validation message and generation does not proceed; when
1 ≤ num_terms ≤ 1000, generation proceeds to the rendered result. -/
theorem C3_validation_gate (fmt fmtF : ℚ → String) (a d : ℚ) (n : ℤ) :
    ((n ≤ 0 ∨ 1000 < n) →
      ∃ msg, main_flow fmt fmtF a d n = .validation_error msg) ∧
    (1 ≤ n → n ≤ 1000 →
      main_flow fmt fmtF a d n =
        .rendered (generate_arithmetic_sequence a d n)
          (format_sequence_display fmt (generate_arithmetic_sequence a d n))
          (generate_arithmetic_sequence a d n).sum
          (displayed_last_term (generate_arithmetic_sequence a d n))
          (download_offer fmt fmtF a d n (generate_arithmetic_sequence a d n))) := by
  constructor
  · rintro (h | h)
    · exact ⟨_, by rw [main_flow, if_pos h]⟩
    · exact ⟨_, by rw [main_flow, if_neg (by omega), if_pos h]⟩
  · intro h1 h2
    rw [main_flow, if_neg (by omega), if_neg (by omega)]

/-- Witness for C3 at num_terms = 0 (rejected) and num_terms = 10 (proceeds). -/
theorem C3_validation_gate_witness :
    (∃ msg, main_flow toString toString 1 1 0 = .validation_error msg) ∧
    main_flow toString toString 1 1 10 =
      .rendered (generate_arithmetic_sequence 1 1 10)
        (format_sequence_display toString (generate_arithmetic_sequence 1 1 10))
        (generate_arithmetic_sequence 1 1 10).sum
        (displayed_last_term (generate_arithmetic_sequence 1 1 10))
        (download_offer toString toString 1 1 10 (generate_arithmetic_sequence 1 1 10)) :=
  ⟨(C3_validation_gate toString toString 1 1 0).1 (Or.inl (by decide)),
   (C3_validation_gate toString toString 1 1 10).2 (by decide) (by decide)⟩

/-- Claim C4 counterexample: for num_terms = 45 the displayed presentation
contains no chunk lines at all (the sequence has length 45 ≤ 50, so it is
rendered as the single inline line, not chunked). -/
theorem C4_counterexample :
    (format_sequence_display toString (generate_arithmetic_sequence 1 1 45)).chunk_texts_of
      = [] := by
  have hlen : (generate_arithmetic_sequence 1 1 45).length = 45 := by
    rw [length_generate]; rfl
  rw [format_sequence_display, if_pos (by rw [hlen]; omega)]
  rfl

/-- Claim C4 (amended): the chunk decomposition applied to the 45-term
sequence would give 3 chunks of sizes [20, 20, 5] with start offsets
[0, 20, 40] and labels "Terms 1-20", "Terms 21-40", "Terms 41-45"; but the
displayed presentation for num_terms = 45 is the single inline comma-joined
line, because the chunked view is only shown for sequences longer than 50. -/
theorem C4_chunking_at_45 (fmt : ℚ → String) :
    ((chunks (generate_arithmetic_sequence 1 1 45) 20).map (fun c => c.2.length)
        = [20, 20, 5]) ∧
    ((chunks (generate_arithmetic_sequence 1 1 45) 20).map (fun c => c.1)
        = [0, 20, 40]) ∧
    ((chunks (generate_arithmetic_sequence 1 1 45) 20).map
        (fun c => chunkLabel (c.1 + 1) (min (c.1 + 20) 45))
        = ["Terms 1-20", "Terms 21-40", "Terms 41-45"]) ∧
    format_sequence_display fmt (generate_arithmetic_sequence 1 1 45)
      = .inline (joinTerms fmt (generate_arithmetic_sequence 1 1 45)) := by
  have hlen : (generate_arithmetic_sequence 1 1 45).length = 45 := by
    rw [length_generate]; rfl
  refine ⟨?_, ?_, ?_, ?_⟩
  · decide
  · decide
  · decide
  · rw [format_sequence_display, if_pos (by rw [hlen]; omega)]

/-- Claim C5: a sequence of length ≤ 50 is presented as a single
comma-joined line of all terms; a sequence of length > 50 is presented in
the compact form: the first 10 elements, the last 10 elements (the length
> 20 guard always holds there), and the full sequence in chunks of 20,
each labeled with its 1-based term-index range. -/
theorem C5_display_branches (fmt : ℚ → String) (s : List ℚ) :
    (s.length ≤ 50 →
      format_sequence_display fmt s = .inline (joinTerms fmt s)) ∧
    (50 < s.length →
      format_sequence_display fmt s =
        .compact (joinTerms fmt (s.take 10))
          (some (joinTerms fmt (s.drop (s.length - 10))))
          ((chunks s 20).map
            (fun c => chunkLabel (c.1 + 1) (min (c.1 + 20) s.length) ++ ": "
              ++ joinTerms fmt c.2))) := by
  constructor
  · intro h
    rw [format_sequence_display, if_pos h]
  · intro h
    rw [format_sequence_display, if_neg (by omega), if_pos (by omega)]
    rfl

/-- Witness for C5: the inline branch for the 10-term sequence and the
compact branch for the 51-term sequence. -/
theorem C5_display_branches_witness :
    (format_sequence_display toString (generate_arithmetic_sequence 1 1 10)
      = .inline (joinTerms toString (generate_arithmetic_sequence 1 1 10))) ∧
    (format_sequence_display toString (generate_arithmetic_sequence 0 1 51)
      = .compact (joinTerms toString ((generate_arithmetic_sequence 0 1 51).take 10))
          (some (joinTerms toString ((generate_arithmetic_sequence 0 1 51).drop
            ((generate_arithmetic_sequence 0 1 51).length - 10))))
          ((chunks (generate_arithmetic_sequence 0 1 51) 20).map
            (fun c => chunkLabel (c.1 + 1)
                (min (c.1 + 20) (generate_arithmetic_sequence 0 1 51).length) ++ ": "
              ++ joinTerms toString c.2))) :=
  ⟨(C5_display_branches toString (generate_arithmetic_sequence 1 1 10)).1
      (by rw [length_generate]; decide),
   (C5_display_branches toString (generate_arithmetic_sequence 0 1 51)).2
      (by rw [length_generate]; decide)⟩

/-- Claim C6: the worked examples: (1, 1, 10) generates [1..10] with sum 55
and last element 10; (5, -2, 5) generates [5, 3, 1, -1, -3] with sum 5 and
last element -3. -/
theorem C6_examples :
    generate_arithmetic_sequence 1 1 10 = [1, 2, 3, 4, 5, 6, 7, 8, 9, 10] ∧
    (generate_arithmetic_sequence 1 1 10).sum = 55 ∧
    displayed_last_term (generate_arithmetic_sequence 1 1 10) = some 10 ∧
    generate_arithmetic_sequence 5 (-2) 5 = [5, 3, 1, -1, -3] ∧
    (generate_arithmetic_sequence 5 (-2) 5).sum = 5 ∧
    displayed_last_term (generate_arithmetic_sequence 5 (-2) 5) = some (-3) := by
  have h10 : generate_arithmetic_sequence 1 1 10 = [1, 2, 3, 4, 5, 6, 7, 8, 9, 10] := by
    unfold generate_arithmetic_sequence
    have hr : List.range (Int.toNat 10) = [0, 1, 2, 3, 4, 5, 6, 7, 8, 9] := rfl
    rw [hr]
    norm_num
  have h5 : generate_arithmetic_sequence 5 (-2) 5 = [5, 3, 1, -1, -3] := by
    unfold generate_arithmetic_sequence
    have hr : List.range (Int.toNat 5) = [0, 1, 2, 3, 4] := rfl
    rw [hr]
    norm_num
  refine ⟨h10, ?_, ?_, h5, ?_, ?_⟩
  · rw [h10]; norm_num
  · rw [h10]; rfl
  · rw [h5]; norm_num
  · rw [h5]; rfl

/-- Claim C7: the plain-text export is offered exactly when the generated
sequence has more than 10 elements; when offered, its file name is
arithmetic_sequence_<first_term>_<common_difference>_<num_terms>.txt and
its body is one line per term of the form "Term <1-based index>: <value>",
joined by newlines. -/
theorem C7_download_export (fmt fmtF : ℚ → String) (a d : ℚ) (n : ℤ) :
    (10 < (generate_arithmetic_sequence a d n).length →
      download_offer fmt fmtF a d n (generate_arithmetic_sequence a d n) =
        some ("arithmetic_sequence_" ++ fmtF a ++ "_" ++ fmtF d ++ "_"
            ++ toString n ++ ".txt",
          String.intercalate "\n" ((generate_arithmetic_sequence a d n).enum.map
            (fun p => "Term " ++ toString (p.1 + 1) ++ ": " ++ fmt p.2)))) ∧
    ((generate_arithmetic_sequence a d n).length ≤ 10 →
      download_offer fmt fmtF a d n (generate_arithmetic_sequence a d n) = none) := by
  constructor
  · intro h
    rw [download_offer, if_pos h]
    rfl
  · intro h
    rw [download_offer, if_neg (by omega)]

/-- Witness for C7: offered for num_terms = 11, not offered for num_terms = 5. -/
theorem C7_download_export_witness :
    (download_offer toString toString 1 1 11 (generate_arithmetic_sequence 1 1 11) =
      some ("arithmetic_sequence_" ++ toString (1 : ℚ) ++ "_" ++ toString (1 : ℚ) ++ "_"
          ++ toString (11 : ℤ) ++ ".txt",
        String.intercalate "\n" ((generate_arithmetic_sequence 1 1 11).enum.map
          (fun p => "Term " ++ toString (p.1 + 1) ++ ": " ++ toString p.2)))) ∧
    download_offer toString toString 1 1 5 (generate_arithmetic_sequence 1 1 5) = none :=
  ⟨(C7_download_export toString toString 1 1 11).1 (by rw [length_generate]; decide),
   (C7_download_export toString toString 1 1 5).2 (by rw [length_generate]; decide)⟩

/-- Claim C8: boundary behaviour: num_terms = 1 generates exactly
[first_term] and the displayed last-term metric equals the first element;
num_terms = 1000 passes validation (generation proceeds) and produces a
sequence of length 1000. -/
theorem C8_boundaries (fmt fmtF : ℚ → String) (a d : ℚ) :
    generate_arithmetic_sequence a d 1 = [a] ∧
    displayed_last_term (generate_arithmetic_sequence a d 1) = some a ∧
    (generate_arithmetic_sequence a d 1).head? = some a ∧
    (generate_arithmetic_sequence a d 1000).length = 1000 ∧
    (main_flow fmt fmtF a d 1000).proceeded = true := by
  have h1 : generate_arithmetic_sequence a d 1 = [a] := by
    unfold generate_arithmetic_sequence
    have hr : List.range (Int.toNat 1) = [0] := rfl
    rw [hr]
    simp
  refine ⟨h1, ?_, ?_, ?_, ?_⟩
  · rw [h1]; rfl
  · rw [h1]; rfl
  · rw [length_generate]; rfl
  · rw [main_flow, if_neg (by omega), if_neg (by omega)]; rfl

/-- Claim C9: the generator is deterministic: two invocations with
identical inputs return identical sequences. -/
theorem C9_deterministic (a₁ d₁ : ℚ) (n₁ : ℤ) (a₂ d₂ : ℚ) (n₂ : ℤ)
    (ha : a₁ = a₂) (hd : d₁ = d₂) (hn : n₁ = n₂) :
    generate_arithmetic_sequence a₁ d₁ n₁ = generate_arithmetic_sequence a₂ d₂ n₂ := by
  rw [ha, hd, hn]

/-- Witness for C9 at the inputs (1, 1, 10) given twice. -/
theorem C9_deterministic_witness :
    generate_arithmetic_sequence 1 1 10 = generate_arithmetic_sequence 1 1 10 :=
  C9_deterministic 1 1 10 1 1 10 rfl rfl rfl

/-- Claim C10: the generator is total over all integer num_terms: for any
num_terms ≤ 0 it returns the empty list (Python range over a non-positive
bound is empty), raising no error. -/
theorem C10_nonpositive_empty (a d : ℚ) (n : ℤ) (h : n ≤ 0) :
    generate_arithmetic_sequence a d n = [] := by
  unfold generate_arithmetic_sequence
  rw [Int.toNat_of_nonpos h]
  rfl

/-- Witness for C10 at num_terms = -5. -/
theorem C10_nonpositive_empty_witness :
    generate_arithmetic_sequence 1 1 (-5) = [] :=
  C10_nonpositive_empty 1 1 (-5) (by decide)

end ArithmeticSequenceApp
